import Mathlib

/-!
Verification development for the ABJ Tutorial registration-and-approval bot
(src/bot.py).  The mutable process state of the bot (the dicts
bot_data.user_statuses, bot_data.user_data, bot_data.pending_reviews,
bot_data.pending_comments, the per-user context.user_data session dict and the
per-user ConversationHandler states) is embedded as a Lean state record, and
every handler of bot.py that touches that state is embedded as a pure state
transformer.  Outbound Telegram calls are recorded as a list of actions; calls
that can fail at runtime are driven by an oracle of success flags, mirroring
the try/except blocks of the source.
-/

namespace Abj

/-! ## Python dict operations on association lists

Python dicts are embedded as association lists with unique keys.  `dget` is
`d.get(k)`, `dset` is `d[k] = v` (overwrite), `dpop` is `d.pop(k, None)`.
(`dset` places the updated binding at the head rather than keeping the original
insertion position; key/value semantics agree with the dict.) -/

def dget {κ α : Type} [DecidableEq κ] : List (κ × α) → κ → Option α
  | [], _ => none
  | (k, v) :: rest, x => if k = x then some v else dget rest x

def dpop {κ α : Type} [DecidableEq κ] : List (κ × α) → κ → List (κ × α)
  | [], _ => []
  | (k, v) :: rest, x => if k = x then dpop rest x else (k, v) :: dpop rest x

def dset {κ α : Type} [DecidableEq κ] (d : List (κ × α)) (k : κ) (v : α) : List (κ × α) :=
  (k, v) :: dpop d k

theorem dget_dpop {κ α : Type} [DecidableEq κ] (d : List (κ × α)) (k x : κ) :
    dget (dpop d k) x = if x = k then none else dget d x := by
  induction d with
  | nil => simp [dget, dpop]
  | cons hd tl ih =>
    obtain ⟨k1, v1⟩ := hd
    by_cases h1 : k1 = k
    · by_cases h2 : x = k
      · simp only [h2] at ih ⊢
        simp [dpop, h1, ih]
      · have h3 : ¬ k1 = x := fun h => h2 (h.symm.trans h1)
        have h4 : ¬ k = x := fun h => h2 h.symm
        simp only [h2] at ih
        simp [dpop, h1, dget, h2, h3, h4, ih]
    · by_cases h2 : k1 = x
      · have h3 : ¬ x = k := fun h => h1 (h2.trans h)
        simp [dpop, h1, dget, h2, h3]
      · simp [dpop, h1, dget, h2, ih]

theorem dget_dset {κ α : Type} [DecidableEq κ] (d : List (κ × α)) (k x : κ) (v : α) :
    dget (dset d k v) x = if k = x then some v else dget d x := by
  by_cases h : k = x
  · simp [dset, dget, h]
  · have hx : ¬ x = k := fun hh => h hh.symm
    simp [dset, dget, h, dget_dpop, hx]

/-! ## Python string helpers

`String` in this toolchain is a structure over `List Char`, so the helpers
recurse over `String.data`; `pySplitU` is the Python `s.split("_")` (the only
separator used by bot.py), `pyStrip` is `s.strip()`, `pyToNat` is `int(s)` on
the digit strings that reach it, `strStarts` is the anchored regex match
`re.match("^pat", s)` used by the callback-query dispatch patterns. -/

def wsChar (c : Char) : Bool := c = ' ' || c = '\t' || c = '\n' || c = '\r'

def pyStrip (s : String) : String :=
  ⟨((s.data.dropWhile wsChar).reverse.dropWhile wsChar).reverse⟩

def splitChar (c : Char) : List Char → List Char → List (List Char)
  | [], acc => [acc.reverse]
  | x :: xs, acc =>
    if x = c then acc.reverse :: splitChar c xs [] else splitChar c xs (x :: acc)

def pySplitU (s : String) : List String := (splitChar '_' s.data []).map (fun l => ⟨l⟩)

def idx1 (parts : List String) : String := parts.getD 1 ""

def digitVal (c : Char) : Option Nat := if c.isDigit then some (c.toNat - 48) else none

def digitsToNatAux : List Char → Nat → Option Nat
  | [], acc => some acc
  | c :: cs, acc =>
    match digitVal c with
    | some d => digitsToNatAux cs (acc * 10 + d)
    | none => none

def pyToNat (s : String) : Option Nat :=
  match s.data with
  | [] => none
  | l => digitsToNatAux l 0

def listStarts {α : Type} [DecidableEq α] : List α → List α → Bool
  | _, [] => true
  | [], _ :: _ => false
  | x :: xs, y :: ys => decide (x = y) && listStarts xs ys

def strStarts (s pat : String) : Bool := listStarts s.data pat.data

def strDrop (s : String) (n : Nat) : String := ⟨s.data.drop n⟩

/-! ## Data model -/

/-- Identity fields of the Telegram user attached to an inbound update. -/
structure Ident where
  id : Nat
  username : Option String
  first_name : String
deriving DecidableEq, Repr

/-- The user_info dict built in receive_screenshot (src/bot.py:550-559).
Fields read with context.user_data.get(...) are Options, since the Python dict
stores None when the session never set the key. -/
structure UserInfo where
  full_name : Option String
  semester : Option String
  stream : Option String
  gender : Option String
  payment_method : Option String
  username : Option String
  first_name : String
  user_id : Nat
deriving DecidableEq, Repr

/-- The pending_info dict stored in bot_data.pending_reviews
(src/bot.py:563-577). -/
structure PendingInfo where
  user_id : Nat
  username : Option String
  first_name : String
  full_name : Option String
  semester : Option String
  stream : Option String
  gender : Option String
  payment_method : Option String
  payment_id : String
  screenshot_file_id : String
  timestamp : String
  user_info : UserInfo
deriving DecidableEq, Repr

/-- The comment dict stored in bot_data.pending_comments (src/bot.py:828-835). -/
structure CommentInfo where
  user_id : Nat
  user_name : Option String
  username : Option String
  semester : Option String
  comment : String
  timestamp : String
deriving DecidableEq, Repr

/-- The per-user context.user_data session dict: every key that bot.py ever
writes into it.  An absent key is None here. -/
structure Session where
  full_name : Option String
  semester : Option String
  stream : Option String
  gender : Option String
  payment_method : Option String
  payment_id : Option String
  registration_in_progress : Bool
  announcement_semester : Option String
  reply_comment_id : Option String
  reply_user_id : Option Nat
  reply_user_name : Option (Option String)
deriving DecidableEq, Repr

def Session.empty : Session :=
  ⟨none, none, none, none, none, none, false, none, none, none, none⟩

/-- States of the registration ConversationHandler (src/bot.py:1168-1175). -/
inductive RegState
  | getFullName
  | getSemester
  | getStream
  | getGender
  | getPaymentMethod
  | awaitingScreenshot
deriving DecidableEq, Repr

/-- States of the announcement ConversationHandler (src/bot.py:1209-1212). -/
inductive AnnState
  | annSemester
  | annContent
deriving DecidableEq, Repr

/-- Per-user conversation keys of the four ConversationHandlers.  A user absent
from a map is not in that conversation.  The ask and reply handlers have a
single state each, so membership lists suffice. -/
structure ConvMap where
  reg : List (Nat × RegState)
  ask : List Nat
  rep : List Nat
  ann : List (Nat × AnnState)
deriving DecidableEq, Repr

/-- The process-wide bot_data dicts initialised in main (src/bot.py:1157-1160). -/
structure BotData where
  user_statuses : List (Nat × String)
  user_data : List (Nat × UserInfo)
  pending_reviews : List (Nat × PendingInfo)
  pending_comments : List (String × CommentInfo)
deriving DecidableEq, Repr

/-- Whole mutable state of the bot process. -/
structure SysState where
  bot : BotData
  sessions : List (Nat × Session)
  conv : ConvMap
deriving DecidableEq, Repr

def initState : SysState := ⟨⟨[], [], [], []⟩, [], ⟨[], [], [], []⟩⟩

/-- user_statuses.get(user_id, 'none') (src/bot.py:76 etc.). -/
def statusOf (s : SysState) (u : Nat) : String :=
  (dget s.bot.user_statuses u).getD "none"

def sessOf (s : SysState) (u : Nat) : Session :=
  (dget s.sessions u).getD Session.empty

/-- Startup configuration (src/bot.py:24-29). -/
structure Config where
  adminIds : List Nat
  logChannelId : Option Int
  mainChannelId : Option Int

/-- Success flags for the outbound Telegram calls that bot.py wraps in
try/except: whether create_chat_invite_link + the invite delivery succeed,
whether delete_message succeeds, which recipients raise on send, and whether
ban_chat_member succeeds. -/
structure Oracle where
  inviteOk : Bool
  deleteOk : Bool
  deliverFail : Nat → Bool
  banOk : Nat → Bool

/-- Outbound Telegram calls recorded by the embedding.  Message texts are
abbreviated to stable tags; the structure (recipient, attachment, control
bindings) is kept. -/
inductive Act
  | answerCb (tag : String)
  | replyText (tag : String)
  | editText (tag : String)
  | sendMsg (chat : Int) (tag : String)
  | sendPhotoAct (chat : Int) (fileId : String) (tag : String)
  | deleteMessage
  | createInviteLink (chat : Int) (memberLimit : Nat)
  | banChatMember (chat : Int) (uid : Nat)
  | unbanChatMember (chat : Int) (uid : Nat)
deriving DecidableEq, Repr

def setStatus (s : SysState) (u : Nat) (v : String) : SysState :=
  { s with bot := { s.bot with user_statuses := dset s.bot.user_statuses u v } }

/-! ## Admin approval handler (src/bot.py:629-762)

user_approval_handler: authorisation check, parse of the callback data
action_userid, pop of the pending_reviews entry (explicit early return with
"Request already processed or not found." when absent), status transition,
then the fallible notifications.  A parse failure raises in Python and is
caught by the outer except, which edits the message to an error notice and
leaves the state untouched. -/

def user_approval_handler (cfg : Config) (o : Oracle) (adminId : Nat) (data : String)
    (s : SysState) : SysState × List Act :=
  if adminId ∈ cfg.adminIds then
    match pySplitU data with
    | [action, userIdStr] =>
      match pyToNat userIdStr with
      | some userId =>
        match dget s.bot.pending_reviews userId with
        | none => (s, [Act.answerCb "", Act.editText "already_processed"])
        | some ud =>
          let s1 : SysState :=
            { s with bot := { s.bot with pending_reviews := dpop s.bot.pending_reviews userId } }
          if action = "approve" then
            let s2 := setStatus s1 userId "approved"
            let logActs := match cfg.logChannelId with
              | some lc => [Act.sendPhotoAct lc ud.screenshot_file_id "approved_log"]
              | none => []
            let inviteActs := match cfg.mainChannelId with
              | some mc =>
                if o.inviteOk then
                  [Act.createInviteLink mc 1, Act.sendMsg (Int.ofNat userId) "invite_delivery"]
                else []
              | none => []
            let delActs := [Act.deleteMessage] ++
              (if o.deleteOk then [] else [Act.editText "error_processing"])
            (s2, [Act.answerCb ""] ++ logActs ++ inviteActs ++ delActs)
          else if action = "reject" then
            let s2 := setStatus s1 userId "rejected"
            let logActs := match cfg.logChannelId with
              | some lc => [Act.sendPhotoAct lc ud.screenshot_file_id "rejected_log"]
              | none => []
            let delActs := [Act.deleteMessage] ++
              (if o.deleteOk then [] else [Act.editText "error_processing"])
            (s2, [Act.answerCb ""] ++ logActs ++ [Act.sendMsg (Int.ofNat userId) "rejection_notice"] ++ delActs)
          else (s1, [Act.answerCb ""])
      | none => (s, [Act.answerCb "", Act.editText "error_processing"])
    | _ => (s, [Act.answerCb "", Act.editText "error_processing"])
  else (s, [Act.answerCb "not_authorized"])

theorem statusOf_setStatus (s : SysState) (u : Nat) (v : String) (x : Nat) :
    statusOf (setStatus s u v) x = if u = x then v else statusOf s x := by
  simp only [statusOf, setStatus, dget_dset]
  by_cases h : u = x <;> simp [h]

theorem approval_hit (cfg : Config) (o : Oracle) (adminId : Nat) (data : String) (s : SysState)
    (action w : String) (uid : Nat) (entry : PendingInfo)
    (hA : adminId ∈ cfg.adminIds) (hp : pySplitU data = [action, w])
    (hw : pyToNat w = some uid) (hq : dget s.bot.pending_reviews uid = some entry)
    (ha : action = "approve" ∨ action = "reject") :
    (user_approval_handler cfg o adminId data s).1 =
      setStatus { s with bot := { s.bot with pending_reviews := dpop s.bot.pending_reviews uid } }
        uid (if action = "approve" then "approved" else "rejected") := by
  have hne : ("reject" : String) ≠ "approve" := by decide
  rcases ha with h | h <;> subst h <;>
    simp [user_approval_handler, hA, hp, hw, hq, hne]

theorem approval_miss (cfg : Config) (o : Oracle) (adminId : Nat) (data : String) (s : SysState)
    (action w : String) (uid : Nat)
    (hA : adminId ∈ cfg.adminIds) (hp : pySplitU data = [action, w])
    (hw : pyToNat w = some uid) (hq : dget s.bot.pending_reviews uid = none) :
    user_approval_handler cfg o adminId data s =
      (s, [Act.answerCb "", Act.editText "already_processed"]) := by
  simp [user_approval_handler, hA, hp, hw, hq]

/-- C1: an admin approve or reject action whose target has an entry in the Review
Queue pops that entry exactly once (all other entries untouched) and applies the
corresponding status transition; when no entry is present the handler replies
"Request already processed or not found." and changes nothing, so of two
successive approve/reject actions on the same user id exactly one takes effect
and the second observes the already-processed notice on the unchanged state. -/
theorem approval_pop_once_and_second_action_noop
    (cfg : Config) (o o2 : Oracle) (adminId : Nat) (data data2 : String) (s : SysState)
    (act w act2 w2 : String) (uid : Nat) (entry : PendingInfo)
    (hA : adminId ∈ cfg.adminIds)
    (hp : pySplitU data = [act, w]) (hw : pyToNat w = some uid)
    (ha : act = "approve" ∨ act = "reject")
    (hp2 : pySplitU data2 = [act2, w2]) (hw2 : pyToNat w2 = some uid)
    (hq : dget s.bot.pending_reviews uid = some entry) :
    dget (user_approval_handler cfg o adminId data s).1.bot.pending_reviews uid = none
    ∧ (∀ v, v ≠ uid →
        dget (user_approval_handler cfg o adminId data s).1.bot.pending_reviews v =
          dget s.bot.pending_reviews v)
    ∧ statusOf (user_approval_handler cfg o adminId data s).1 uid =
        (if act = "approve" then "approved" else "rejected")
    ∧ user_approval_handler cfg o2 adminId data2 (user_approval_handler cfg o adminId data s).1 =
        ((user_approval_handler cfg o adminId data s).1,
          [Act.answerCb "", Act.editText "already_processed"])
    ∧ (∀ t : SysState, dget t.bot.pending_reviews uid = none →
        user_approval_handler cfg o adminId data t =
          (t, [Act.answerCb "", Act.editText "already_processed"])) := by
  have h1 := approval_hit cfg o adminId data s act w uid entry hA hp hw hq ha
  have hpop : dget (user_approval_handler cfg o adminId data s).1.bot.pending_reviews uid = none := by
    rw [h1]; simp [setStatus, dget_dpop]
  refine ⟨hpop, ?_, ?_, ?_, ?_⟩
  · intro v hv
    rw [h1]; simp [setStatus, dget_dpop, hv]
  · rw [h1, statusOf_setStatus]; simp
  · exact approval_miss cfg o2 adminId data2 _ act2 w2 uid hA hp2 hw2 hpop
  · intro t ht
    exact approval_miss cfg o adminId data t act w uid hA hp hw ht

theorem approval_pop_once_and_second_action_noop_witness :
    pySplitU "approve_5" = ["approve", "5"]
    ∧ statusOf (user_approval_handler ⟨[99], some (-100), some (-200)⟩
        ⟨true, true, fun _ => false, fun _ => true⟩ 99 "approve_5"
        ⟨⟨[], [],
          [(5, ⟨5, some "u5", "Five", some "Alemu B", some "First Semester",
            some "Natural Science", some "Male", some "CBE", "ABJ510", "file1", "t0",
            ⟨some "Alemu B", some "First Semester", some "Natural Science", some "Male",
              some "CBE", some "u5", "Five", 5⟩⟩)], []⟩, [], ⟨[], [], [], []⟩⟩).1 5 =
        (if "approve" = "approve" then "approved" else "rejected") :=
  ⟨by decide,
    (approval_pop_once_and_second_action_noop ⟨[99], some (-100), some (-200)⟩
      ⟨true, true, fun _ => false, fun _ => true⟩ ⟨true, true, fun _ => false, fun _ => true⟩
      99 "approve_5" "reject_5" _ "approve" "5" "reject" "5" 5
      ⟨5, some "u5", "Five", some "Alemu B", some "First Semester",
        some "Natural Science", some "Male", some "CBE", "ABJ510", "file1", "t0",
        ⟨some "Alemu B", some "First Semester", some "Natural Science", some "Male",
          some "CBE", some "u5", "Five", 5⟩⟩
      (by decide) (by decide) (by decide) (Or.inl rfl) (by decide) (by decide)
      (by decide)).2.2.1⟩

/-- C6: once an approve or reject action has popped a Review Queue entry, the
resulting Directory status and queue state are identical no matter which of the
subsequent notification calls (log-channel audit, invite creation and delivery,
rejection notice, message deletion) succeed or fail: the handler always returns
normally with the transition applied. -/
theorem approval_transition_durable_under_delivery_failure
    (cfg : Config) (o1 o2 : Oracle) (adminId : Nat) (data : String) (s : SysState)
    (act w : String) (uid : Nat) (entry : PendingInfo)
    (hA : adminId ∈ cfg.adminIds)
    (hp : pySplitU data = [act, w]) (hw : pyToNat w = some uid)
    (ha : act = "approve" ∨ act = "reject")
    (hq : dget s.bot.pending_reviews uid = some entry) :
    (user_approval_handler cfg o1 adminId data s).1 = (user_approval_handler cfg o2 adminId data s).1
    ∧ statusOf (user_approval_handler cfg o1 adminId data s).1 uid =
        (if act = "approve" then "approved" else "rejected")
    ∧ dget (user_approval_handler cfg o1 adminId data s).1.bot.pending_reviews uid = none := by
  have h1 := approval_hit cfg o1 adminId data s act w uid entry hA hp hw hq ha
  have h2 := approval_hit cfg o2 adminId data s act w uid entry hA hp hw hq ha
  refine ⟨h1.trans h2.symm, ?_, ?_⟩
  · rw [h1, statusOf_setStatus]; simp
  · rw [h1]; simp [setStatus, dget_dpop]

theorem approval_transition_durable_under_delivery_failure_witness :
    pySplitU "reject_5" = ["reject", "5"]
    ∧ ((user_approval_handler ⟨[99], some (-100), some (-200)⟩
        ⟨false, false, fun _ => true, fun _ => false⟩ 99 "reject_5"
        ⟨⟨[], [],
          [(5, ⟨5, some "u5", "Five", some "Alemu B", some "First Semester",
            some "Natural Science", some "Male", some "CBE", "ABJ510", "file1", "t0",
            ⟨some "Alemu B", some "First Semester", some "Natural Science", some "Male",
              some "CBE", some "u5", "Five", 5⟩⟩)], []⟩, [], ⟨[], [], [], []⟩⟩).1 =
      (user_approval_handler ⟨[99], some (-100), some (-200)⟩
        ⟨true, true, fun _ => false, fun _ => true⟩ 99 "reject_5"
        ⟨⟨[], [],
          [(5, ⟨5, some "u5", "Five", some "Alemu B", some "First Semester",
            some "Natural Science", some "Male", some "CBE", "ABJ510", "file1", "t0",
            ⟨some "Alemu B", some "First Semester", some "Natural Science", some "Male",
              some "CBE", some "u5", "Five", 5⟩⟩)], []⟩, [], ⟨[], [], [], []⟩⟩).1) :=
  ⟨by decide,
    (approval_transition_durable_under_delivery_failure ⟨[99], some (-100), some (-200)⟩
      ⟨false, false, fun _ => true, fun _ => false⟩ ⟨true, true, fun _ => false, fun _ => true⟩
      99 "reject_5" _ "reject" "5" 5
      ⟨5, some "u5", "Five", some "Alemu B", some "First Semester",
        some "Natural Science", some "Male", some "CBE", "ABJ510", "file1", "t0",
        ⟨some "Alemu B", some "First Semester", some "Natural Science", some "Male",
          some "CBE", some "u5", "Five", 5⟩⟩
      (by decide) (by decide) (by decide) (Or.inr rfl) (by decide)).1⟩

/-! ## Stream selection table (src/bot.py:398-438)

get_semester builds an inline keyboard of (label, callback data) buttons that
depends on the chosen semester, then appends a cancel row; get_stream stores
query.data.split("_")[1] as the stream value. -/

def get_semester_keyboard (semester : String) : List (String × String) :=
  (if semester = "First Semester" then
    [("Social Science", "stream_Social Science"),
     ("Natural Science", "stream_Natural Science")]
  else if semester = "Second Semester" then
    [("Pre-Engineering", "stream_Pre-Engineering"),
     ("Other Natural Science", "stream_Other Natural Science"),
     ("Social Science", "stream_Social Science"),
     ("Health Science", "stream_Health")]
  else []) ++ [("❌ Cancel", "cancel_registration")]

/-- The stream option rows of the keyboard (everything except the cancel row). -/
def streamButtons (semester : String) : List (String × String) :=
  (get_semester_keyboard semester).filter (fun p => strStarts p.2 "stream_")

/-- The value stored by get_stream (src/bot.py:437): query.data.split("_")[1]. -/
def get_stream_value (data : String) : String := idx1 (pySplitU data)

/-- C7 counterexample: the Second Semester keyboard offers a button labelled
"Health Science" whose callback payload is "stream_Health", so get_stream
stores the value "Health", not "Health Science" as the claim states. -/
theorem stream_health_button_stores_health :
    ("Health Science", "stream_Health") ∈ streamButtons "Second Semester"
    ∧ get_stream_value "stream_Health" = "Health"
    ∧ "Health" ≠ "Health Science" := by decide

/-- C7 (amended): choosing First Semester offers exactly the stream labels
Social Science and Natural Science, choosing Second Semester offers exactly
Pre-Engineering, Other Natural Science, Social Science and Health Science, and
the stored stream value is the callback payload of the chosen button, which
equals the label for every option except Health Science, which stores
"Health". -/
theorem stream_option_tables :
    (streamButtons "First Semester").map Prod.fst = ["Social Science", "Natural Science"]
    ∧ (streamButtons "Second Semester").map Prod.fst =
        ["Pre-Engineering", "Other Natural Science", "Social Science", "Health Science"]
    ∧ (streamButtons "First Semester" ++ streamButtons "Second Semester").all
        (fun p => get_stream_value p.2 ==
          (if p.1 = "Health Science" then "Health" else p.1)) = true := by decide

/-! ## Access gate (src/bot.py:1085-1134)

handle_new_chat_members acts only on the configured main channel (the handler
is registered only when MAIN_CHANNEL_ID is set); for every joining member it
checks the truthiness of message.invite_link and the Directory status, then
kicks via ban+unban (one try block: a failed ban skips the unban) and sends an
audit note to the log channel. -/

/-- Invite-link object attached to a join message.  The bot mints its own
single-use credentials with member_limit = 1 (src/bot.py:690); the code of
handle_new_chat_members never inspects this field. -/
structure InviteLinkInfo where
  member_limit : Option Nat
  link : String
deriving DecidableEq, Repr

def handle_new_chat_members (cfg : Config) (o : Oracle) (statuses : List (Nat × String))
    (chatId : Int) (invite : Option InviteLinkInfo) (members : List Ident) : List Act :=
  match cfg.mainChannelId with
  | none => []
  | some mc =>
    if chatId ≠ mc then []
    else if members = [] then []
    else
      (members.map (fun m =>
        match invite with
        | none => []
        | some _ =>
          if (dget statuses m.id).getD "none" ≠ "approved" then
            ([Act.banChatMember mc m.id] ++
              (if o.banOk m.id then [Act.unbanChatMember mc m.id] else [])) ++
            (match cfg.logChannelId with
             | some lc => [Act.sendMsg lc ("unauthorized_join_blocked_" ++ toString m.id)]
             | none => [])
          else [])).flatten

/-- Number of audit notes emitted about user u. -/
def auditNotesFor (acts : List Act) (lc : Int) (u : Nat) : Nat :=
  acts.count (Act.sendMsg lc ("unauthorized_join_blocked_" ++ toString u))

/-- Spec-side notion from spec §4.4, modelled from the spec: a shareable invite
artifact, as opposed to the single-use credential (member_limit = 1) minted on
approval.  The code never makes this distinction. -/
def shareableInvite_spec (invite : Option InviteLinkInfo) : Bool :=
  match invite with
  | none => false
  | some l => if l.member_limit = some 1 then false else true

/-- C4 counterexample: a non-approved user joining the gated channel via a
single-use credential (member_limit = 1, not a shareable artifact) is removed
by the code, refuting the claimed "removal iff shareable invite and not
approved" at this input. -/
theorem access_gate_removes_single_use_joiner :
    ¬ ((Act.banChatMember (-200) 7 ∈
        handle_new_chat_members ⟨[99], some (-100), some (-200)⟩
          ⟨true, true, fun _ => false, fun _ => true⟩ [] (-200)
          (some ⟨some 1, "link1"⟩) [⟨7, none, "Seven"⟩])
      ↔ (shareableInvite_spec (some ⟨some 1, "link1"⟩) = true
          ∧ (dget ([] : List (Nat × String)) 7).getD "none" ≠ "approved")) := by
  decide

theorem gate_single_member (cfg : Config) (o : Oracle) (statuses : List (Nat × String))
    (mc lc : Int) (m : Ident) (invite : Option InviteLinkInfo)
    (hmc : cfg.mainChannelId = some mc) (hlc : cfg.logChannelId = some lc) :
    handle_new_chat_members cfg o statuses mc invite [m] =
      (if invite ≠ none ∧ (dget statuses m.id).getD "none" ≠ "approved" then
        ([Act.banChatMember mc m.id] ++
          (if o.banOk m.id then [Act.unbanChatMember mc m.id] else [])) ++
        [Act.sendMsg lc ("unauthorized_join_blocked_" ++ toString m.id)]
      else []) := by
  cases invite with
  | none => simp [handle_new_chat_members, hmc, hlc]
  | some l =>
    by_cases hst : (dget statuses m.id).getD "none" = "approved" <;>
      simp [handle_new_chat_members, hmc, hlc, hst]

/-- C4 (amended): on a join event in the gated channel, the joining member is
removed (ban attempted, then unban) and exactly one audit note is emitted iff
the join message carries any invite link (the code does not distinguish
shareable links from its own single-use credentials) and the Directory status
of the joiner is not approved; in particular a join by the approved credential
owner triggers no removal and no note. -/
theorem access_gate_removal_characterisation
    (cfg : Config) (o : Oracle) (statuses : List (Nat × String))
    (invite : Option InviteLinkInfo) (mc lc : Int) (m : Ident)
    (hmc : cfg.mainChannelId = some mc) (hlc : cfg.logChannelId = some lc) :
    ((Act.banChatMember mc m.id ∈ handle_new_chat_members cfg o statuses mc invite [m])
      ↔ (invite ≠ none ∧ (dget statuses m.id).getD "none" ≠ "approved"))
    ∧ auditNotesFor (handle_new_chat_members cfg o statuses mc invite [m]) lc m.id =
        (if invite ≠ none ∧ (dget statuses m.id).getD "none" ≠ "approved" then 1 else 0) := by
  rw [gate_single_member cfg o statuses mc lc m invite hmc hlc]
  by_cases hc : invite ≠ none ∧ (dget statuses m.id).getD "none" ≠ "approved"
  · constructor
    · simp [hc]
    · cases hob : o.banOk m.id <;> simp [hc, auditNotesFor, hob, List.count_cons]
  · constructor
    · simp [hc]
    · simp [hc, auditNotesFor]

theorem access_gate_removal_characterisation_witness :
    (some (⟨none, "shared_link"⟩ : InviteLinkInfo) ≠ none
      ∧ (dget [(7, "pending")] 7).getD "none" ≠ "approved")
    ∧ auditNotesFor
        (handle_new_chat_members ⟨[99], some (-100), some (-200)⟩
          ⟨true, true, fun _ => false, fun _ => true⟩ [(7, "pending")] (-200)
          (some ⟨none, "shared_link"⟩) [⟨7, none, "Seven"⟩]) (-100) 7 =
      (if (some (⟨none, "shared_link"⟩ : InviteLinkInfo) ≠ none
          ∧ (dget [(7, "pending")] 7).getD "none" ≠ "approved") then 1 else 0) :=
  ⟨by decide,
    (access_gate_removal_characterisation ⟨[99], some (-100), some (-200)⟩
      ⟨true, true, fun _ => false, fun _ => true⟩ [(7, "pending")]
      (some ⟨none, "shared_link"⟩) (-200) (-100) ⟨7, none, "Seven"⟩
      rfl rfl).2⟩

/-! ## Announcement flow (src/bot.py:977-1052)

announcement_content filters user_statuses for approved users matching the
chosen cohort, then loops over the targets: a text message or photo is relayed
(counting an exception as failed), while any other content type performs no
send at all but still counts the target as sent. -/

inductive Content
  | textContent (body : String)
  | photoContent (fileIds : List String) (caption : Option String)
  | otherContent
deriving DecidableEq, Repr

/-- Python truthiness of message.text / message.photo in the send loop. -/
def contentAttempted : Content → Bool
  | .textContent b => if b = "" then false else true
  | .photoContent fs _ => if fs = [] then false else true
  | .otherContent => false

/-- Target computation of announcement_content (src/bot.py:1007-1012). -/
def announcement_targets (statuses : List (Nat × String)) (udata : List (Nat × UserInfo))
    (semester : String) : List Nat :=
  (statuses.filter (fun p =>
    p.2 == "approved" &&
      (semester == "all" || ((dget udata p.1).bind UserInfo.semester == some semester)))).map
    Prod.fst

/-- Send loop of announcement_content (src/bot.py:1015-1035): returns
(sent_count, (failed_count, attempted sends)). -/
def announcement_send (content : Content) (fail : Nat → Bool) :
    List Nat → Nat × Nat × List Act
  | [] => (0, 0, [])
  | uid :: rest =>
    let r := announcement_send content fail rest
    let sends : List Act :=
      match content with
      | .textContent b =>
        if b = "" then [] else [Act.sendMsg (Int.ofNat uid) "announcement_text"]
      | .photoContent fs _ =>
        if fs = [] then [] else [Act.sendPhotoAct (Int.ofNat uid) (fs.getLastD "") "announcement_photo"]
      | .otherContent => []
    if contentAttempted content && fail uid then (r.1, r.2.1 + 1, sends ++ r.2.2)
    else (r.1 + 1, r.2.1, sends ++ r.2.2)

/-- Full announcement_content handler: cohort from the session (default all,
src/bot.py:1001), send loop, summary reply, session cleared, conversation
ended. -/
def announcement_content_h (o : Oracle) (who : Ident) (content : Content)
    (s : SysState) : SysState × List Act :=
  let semester := (sessOf s who.id).announcement_semester.getD "all"
  let r := announcement_send content o.deliverFail
    (announcement_targets s.bot.user_statuses s.bot.user_data semester)
  ({ s with sessions := dpop s.sessions who.id,
            conv := { s.conv with ann := dpop s.conv.ann who.id } },
   r.2.2 ++ [Act.replyText ("announcement_summary_" ++ toString r.1 ++ "_" ++ toString r.2.1)])

theorem dget_eq_some_iff_mem {α : Type} [DecidableEq α] (l : List (Nat × α)) (u : Nat) (v : α)
    (hnd : (l.map Prod.fst).Nodup) : dget l u = some v ↔ (u, v) ∈ l := by
  induction l with
  | nil => simp [dget]
  | cons hd tl ih =>
    obtain ⟨k1, v1⟩ := hd
    simp only [List.map_cons, List.nodup_cons] at hnd
    obtain ⟨hk, hnd2⟩ := hnd
    by_cases h : k1 = u
    · subst h
      simp only [dget, if_pos rfl, List.mem_cons]
      constructor
      · intro hg
        exact Or.inl (congrArg (Prod.mk k1) (Option.some_inj.1 hg)).symm
      · rintro (h1 | h1)
        · exact congrArg some (congrArg Prod.snd h1).symm
        · exact absurd (List.mem_map.2 ⟨(k1, v), h1, rfl⟩) hk
    · simp only [dget, if_neg h, List.mem_cons]
      rw [ih hnd2]
      constructor
      · exact Or.inr
      · rintro (h1 | h1)
        · exact absurd (congrArg Prod.fst h1).symm h
        · exact h1

theorem announcement_send_counts (content : Content) (fail : Nat → Bool) (targets : List Nat) :
    (announcement_send content fail targets).1 + (announcement_send content fail targets).2.1 =
      targets.length := by
  induction targets with
  | nil => simp [announcement_send]
  | cons uid rest ih =>
    simp only [announcement_send, List.length_cons]
    split <;> simp <;> omega

/-- C5: the target set of an announcement is exactly the users whose Directory
status is approved and whose stored semester equals the chosen cohort (every
approved user when the cohort is all), and the sent plus failed counts reported
to the admin sum to the size of that target set. -/
theorem announcement_targets_and_counts
    (statuses : List (Nat × String)) (udata : List (Nat × UserInfo)) (semester : String)
    (content : Content) (fail : Nat → Bool)
    (hnd : (statuses.map Prod.fst).Nodup) :
    (∀ u, u ∈ announcement_targets statuses udata semester ↔
      (dget statuses u = some "approved" ∧
        (semester = "all" ∨ (dget udata u).bind UserInfo.semester = some semester)))
    ∧ (announcement_send content fail (announcement_targets statuses udata semester)).1 +
        (announcement_send content fail (announcement_targets statuses udata semester)).2.1 =
      (announcement_targets statuses udata semester).length := by
  refine ⟨?_, announcement_send_counts _ _ _⟩
  intro u
  unfold announcement_targets
  rw [List.mem_map]
  constructor
  · rintro ⟨p, hp, rfl⟩
    rw [List.mem_filter] at hp
    obtain ⟨hmem, hpred⟩ := hp
    simp only [Bool.and_eq_true, Bool.or_eq_true, beq_iff_eq] at hpred
    obtain ⟨hst, hsem⟩ := hpred
    have hget : dget statuses p.1 = some p.2 :=
      (dget_eq_some_iff_mem statuses p.1 p.2 hnd).2 hmem
    exact ⟨hst ▸ hget, hsem⟩
  · rintro ⟨happ, hsem⟩
    refine ⟨(u, "approved"), List.mem_filter.2
      ⟨(dget_eq_some_iff_mem statuses u "approved" hnd).1 happ, ?_⟩, rfl⟩
    rcases hsem with h | h <;> simp [h]

theorem announcement_targets_and_counts_witness :
    ((([(1, "approved"), (2, "pending"), (3, "approved")] : List (Nat × String)).map
        Prod.fst).Nodup)
    ∧ (announcement_send (Content.textContent "hello") (fun u => u = 3)
        (announcement_targets [(1, "approved"), (2, "pending"), (3, "approved")]
          [(1, ⟨some "A", some "First Semester", some "Natural Science", some "Male",
            some "CBE", none, "a", 1⟩),
           (3, ⟨some "B", some "Second Semester", some "Pre-Engineering", some "Female",
            some "Telebirr", none, "b", 3⟩)] "First Semester")).1 +
      (announcement_send (Content.textContent "hello") (fun u => u = 3)
        (announcement_targets [(1, "approved"), (2, "pending"), (3, "approved")]
          [(1, ⟨some "A", some "First Semester", some "Natural Science", some "Male",
            some "CBE", none, "a", 1⟩),
           (3, ⟨some "B", some "Second Semester", some "Pre-Engineering", some "Female",
            some "Telebirr", none, "b", 3⟩)] "First Semester")).2.1 =
      (announcement_targets [(1, "approved"), (2, "pending"), (3, "approved")]
        [(1, ⟨some "A", some "First Semester", some "Natural Science", some "Male",
          some "CBE", none, "a", 1⟩),
         (3, ⟨some "B", some "Second Semester", some "Pre-Engineering", some "Female",
          some "Telebirr", none, "b", 3⟩)] "First Semester").length :=
  ⟨by decide,
    (announcement_targets_and_counts [(1, "approved"), (2, "pending"), (3, "approved")]
      [(1, ⟨some "A", some "First Semester", some "Natural Science", some "Male",
        some "CBE", none, "a", 1⟩),
       (3, ⟨some "B", some "Second Semester", some "Pre-Engineering", some "Female",
        some "Telebirr", none, "b", 3⟩)] "First Semester" (Content.textContent "hello")
      (fun u => u = 3) (by decide)).2⟩

/-- C10: when the announcement content is neither (truthy) text nor a photo,
for example the document the content prompt invites, the send loop performs no
delivery at all yet counts every target as sent, so the summary returned to the
admin reports sent = |targets| and failed = 0. -/
theorem announcement_other_content_counts_all_sent (o : Oracle) (who : Ident)
    (s : SysState) (fail : Nat → Bool) (targets : List Nat) :
    (announcement_send Content.otherContent fail targets).1 = targets.length
    ∧ (announcement_send Content.otherContent fail targets).2.1 = 0
    ∧ (announcement_send Content.otherContent fail targets).2.2 = []
    ∧ (announcement_content_h o who Content.otherContent s).2 =
        [Act.replyText ("announcement_summary_" ++
          toString (announcement_targets s.bot.user_statuses s.bot.user_data
            ((sessOf s who.id).announcement_semester.getD "all")).length ++ "_" ++ toString 0)] := by
  have key : ∀ (f : Nat → Bool) (ts : List Nat),
      (announcement_send Content.otherContent f ts).1 = ts.length
      ∧ (announcement_send Content.otherContent f ts).2.1 = 0
      ∧ (announcement_send Content.otherContent f ts).2.2 = [] := by
    intro f ts
    induction ts with
    | nil => simp [announcement_send]
    | cons uid rest ih => simp [announcement_send, contentAttempted, ih]
  refine ⟨(key fail targets).1, (key fail targets).2.1, (key fail targets).2.2, ?_⟩
  have k2 := key o.deliverFail (announcement_targets s.bot.user_statuses s.bot.user_data
    ((sessOf s who.id).announcement_semester.getD "all"))
  simp [announcement_content_h, k2.1, k2.2.1, k2.2.2]

/-! ## Remaining handlers (src/bot.py:71-1079)

Each handler is the pure state transformer of the corresponding bot.py
coroutine.  Conversation-state bookkeeping that python-telegram-bot performs
on the handler's return value is applied where the handler is actually
dispatched from a ConversationHandler; a handler reached through a plain
MessageHandler/CallbackQueryHandler has its returned state ignored, exactly as
the framework does. -/

def updSess (s : SysState) (u : Nat) (f : Session → Session) : SysState :=
  { s with sessions := dset s.sessions u (f (sessOf s u)) }

def setReg (s : SysState) (u : Nat) (st : RegState) : SysState :=
  { s with conv := { s.conv with reg := dset s.conv.reg u st } }

/-- start (src/bot.py:71-151): status-dependent menu, no state change. -/
def start_h (cfg : Config) (who : Ident) (s : SysState) : SysState × List Act :=
  if who.id ∈ cfg.adminIds then (s, [Act.replyText "admin_panel"])
  else if statusOf s who.id = "approved" then (s, [Act.replyText "approved_menu"])
  else if statusOf s who.id = "pending" then (s, [Act.replyText "pending_status"])
  else (s, [Act.replyText "welcome_get_started"])

/-- handle_get_started_callback (src/bot.py:153-182). -/
def handle_get_started_callback (who : Ident) (s : SysState) : SysState × List Act :=
  if statusOf s who.id = "approved" then
    (s, [Act.answerCb "", Act.editText "already_approved", Act.replyText "choose_option"])
  else if statusOf s who.id = "pending" then
    (s, [Act.answerCb "", Act.editText "under_review"])
  else
    (setReg (updSess s who.id (fun ss => { ss with registration_in_progress := true }))
      who.id RegState.getFullName,
     [Act.answerCb "", Act.editText "registration_welcome"])

/-- get_full_name (src/bot.py:375-396). -/
def get_full_name (who : Ident) (body : String) (s : SysState) : SysState × List Act :=
  let nm := pyStrip body
  if nm = "" then (s, [Act.replyText "enter_valid_name"])
  else
    (setReg (updSess s who.id (fun ss => { ss with full_name := some nm }))
      who.id RegState.getSemester,
     [Act.replyText "choose_semester"])

/-- get_semester (src/bot.py:398-430). -/
def get_semester (who : Ident) (data : String) (s : SysState) : SysState × List Act :=
  let semester := idx1 (pySplitU data)
  (setReg (updSess s who.id (fun ss => { ss with semester := some semester }))
    who.id RegState.getStream,
   [Act.answerCb "", Act.editText "choose_stream"])

/-- get_stream (src/bot.py:432-452). -/
def get_stream (who : Ident) (data : String) (s : SysState) : SysState × List Act :=
  let stream := get_stream_value data
  (setReg (updSess s who.id (fun ss => { ss with stream := some stream }))
    who.id RegState.getGender,
   [Act.answerCb "", Act.editText "choose_gender"])

/-- get_gender (src/bot.py:454-475). -/
def get_gender (who : Ident) (data : String) (s : SysState) : SysState × List Act :=
  let gender := idx1 (pySplitU data)
  (setReg (updSess s who.id (fun ss => { ss with gender := some gender }))
    who.id RegState.getPaymentMethod,
   [Act.answerCb "", Act.editText "choose_payment_method"])

/-- get_payment_method (src/bot.py:477-532): derives the payment id from the
fixed prefix, the user id and the message id of the button message. -/
def get_payment_method (who : Ident) (data : String) (msgId : Nat) (s : SysState) :
    SysState × List Act :=
  let pm := idx1 (pySplitU data)
  let payment_id := "ABJ" ++ toString who.id ++ toString msgId
  (setReg (updSess s who.id
      (fun ss => { ss with payment_method := some pm, payment_id := some payment_id }))
    who.id RegState.awaitingScreenshot,
   [Act.answerCb "", Act.editText "registration_summary"])

/-- receive_screenshot (src/bot.py:534-624): stores status pending, the user
record and the Review Queue entry, notifies every admin, clears the session
and ends the registration conversation. -/
def receive_screenshot (cfg : Config) (who : Ident) (photos : List String) (msgId : Nat)
    (date : String) (s : SysState) : SysState × List Act :=
  if photos = [] then (s, [Act.replyText "send_screenshot_as_photo"])
  else
    let sess := sessOf s who.id
    let payment_id := sess.payment_id.getD ("UNKNOWN_" ++ toString who.id ++ "_" ++ toString msgId)
    let ui : UserInfo := ⟨sess.full_name, sess.semester, sess.stream, sess.gender,
      sess.payment_method, who.username, who.first_name, who.id⟩
    let pinfo : PendingInfo := ⟨who.id, who.username, who.first_name, sess.full_name,
      sess.semester, sess.stream, sess.gender, sess.payment_method, payment_id,
      photos.getLastD "", date, ui⟩
    ({ s with
        bot := { s.bot with
          user_statuses := dset s.bot.user_statuses who.id "pending",
          user_data := dset s.bot.user_data who.id ui,
          pending_reviews := dset s.bot.pending_reviews who.id pinfo },
        sessions := dpop s.sessions who.id,
        conv := { s.conv with reg := dpop s.conv.reg who.id } },
     (cfg.adminIds.map
        (fun a => Act.sendPhotoAct (Int.ofNat a) (photos.getLastD "") "new_payment_request")) ++
       [Act.replyText "submission_received"])

/-- clear_pending_requests (src/bot.py:330-340). -/
def clear_pending_requests (s : SysState) : SysState × List Act :=
  let pending_count := s.bot.pending_reviews.length
  ({ s with bot := { s.bot with pending_reviews := [] } },
   [Act.replyText ("cleared_pending_" ++ toString pending_count)])

/-- view_pending_questions (src/bot.py:342-370). -/
def view_pending_questions (s : SysState) : SysState × List Act :=
  if s.bot.pending_comments = [] then (s, [Act.replyText "no_pending_questions"])
  else
    (s, (s.bot.pending_comments.take 5).map
      (fun p => Act.replyText ("pending_question_" ++ p.1)))

/-- Prompt of ask_question_start (src/bot.py:220-238); the ASK_COMMENT state it
returns is honoured only when it runs as the conversation entry point. -/
def ask_question_start_acts : List Act := [Act.replyText "ask_question_prompt"]

/-- Prompt of announcement_start (src/bot.py:270-285). -/
def announcement_start_acts : List Act := [Act.replyText "announcement_cohort_prompt"]

/-- receive_comment (src/bot.py:819-873): stores the Pending Comment Entry and
broadcasts it to all admins with a reply control bound to the entry id. -/
def receive_comment (cfg : Config) (who : Ident) (body : String) (msgId : Nat) (date : String)
    (s : SysState) : SysState × List Act :=
  let ud := dget s.bot.user_data who.id
  let userName : Option String :=
    match ud with
    | none => some who.first_name
    | some ui => ui.full_name
  let commentSem : Option String :=
    match ud with
    | none => some "N/A"
    | some ui => ui.semester
  let comment_id := "comment_" ++ toString who.id ++ "_" ++ toString msgId
  let cd : CommentInfo := ⟨who.id, userName, who.username, commentSem, body, date⟩
  ({ s with
      bot := { s.bot with pending_comments := dset s.bot.pending_comments comment_id cd },
      conv := { s.conv with ask := s.conv.ask.filter (fun x => decide (x ≠ who.id)) } },
   (cfg.adminIds.map (fun a => Act.sendMsg (Int.ofNat a) ("new_question_" ++ comment_id))) ++
     [Act.replyText "question_sent"])

/-- reply_to_comment_start (src/bot.py:875-905). -/
def reply_to_comment_start (who : Ident) (data : String) (s : SysState) : SysState × List Act :=
  let comment_id := if strStarts data "reply_" then strDrop data 6 else data
  match dget s.bot.pending_comments comment_id with
  | none => (s, [Act.answerCb "", Act.editText "comment_unavailable"])
  | some cd =>
    let s1 := updSess s who.id (fun ss => { ss with
      reply_comment_id := some comment_id,
      reply_user_id := some cd.user_id, reply_user_name := some cd.user_name })
    ({ s1 with conv := { s1.conv with
        rep := who.id :: s1.conv.rep.filter (fun x => decide (x ≠ who.id)) } },
     [Act.answerCb "", Act.editText "reply_compose_prompt"])

/-- send_reply_to_user (src/bot.py:907-953): pops the comment before the
delivery attempt; a delivery failure is reported but never rolls the pop back. -/
def send_reply_to_user (o : Oracle) (who : Ident) (body : String) (s : SysState) :
    SysState × List Act :=
  let sess := sessOf s who.id
  match sess.reply_comment_id, sess.reply_user_id with
  | some comment_id, some uid =>
    ({ s with
        bot := { s.bot with pending_comments := dpop s.bot.pending_comments comment_id },
        sessions := dpop s.sessions who.id,
        conv := { s.conv with rep := s.conv.rep.filter (fun x => decide (x ≠ who.id)) } },
     [Act.sendMsg (Int.ofNat uid) "admin_reply",
      Act.replyText (if o.deliverFail uid then "reply_failed" else "reply_sent")])
  | _, _ =>
    ({ s with
        sessions := dpop s.sessions who.id,
        conv := { s.conv with rep := s.conv.rep.filter (fun x => decide (x ≠ who.id)) } },
     [Act.replyText "reply_session_expired"])

/-- announcement_semester (src/bot.py:977-995). -/
def announcement_semester (who : Ident) (data : String) (s : SysState) : SysState × List Act :=
  let semester := idx1 (pySplitU data)
  let s1 := updSess s who.id (fun ss => { ss with announcement_semester := some semester })
  ({ s1 with conv := { s1.conv with ann := dset s1.conv.ann who.id AnnState.annContent } },
   [Act.answerCb "", Act.editText "announcement_content_prompt"])

/-- cancel (src/bot.py:1057-1079): clears the session; which conversation ends
is decided by the dispatching ConversationHandler. -/
def cancel_core (cfg : Config) (who : Ident) (s : SysState) : SysState × List Act :=
  ({ s with sessions := dpop s.sessions who.id },
   if who.id ∈ cfg.adminIds then [Act.replyText "operation_cancelled_admin"]
   else if statusOf s who.id = "approved" then [Act.replyText "operation_cancelled_user"]
   else [Act.replyText "operation_cancelled"])

/-- cancel_registration_callback (src/bot.py:767-779) as dispatched by the
standalone CallbackQueryHandler registered at src/bot.py:1227, which precedes
the registration ConversationHandler, so its END return value is discarded and
no conversation state changes. -/
def cancel_registration_callback (who : Ident) (s : SysState) : SysState × List Act :=
  ({ s with sessions := dpop s.sessions who.id },
   [Act.answerCb "", Act.editText "registration_cancelled"])

/-- cancel_announcement_callback (src/bot.py:781-798), standalone at 1228. -/
def cancel_announcement_callback (who : Ident) (s : SysState) : SysState × List Act :=
  ({ s with sessions := dpop s.sessions who.id },
   [Act.answerCb "", Act.editText "announcement_cancelled"])

/-- cancel_question_callback (src/bot.py:800-814), standalone at 1229. -/
def cancel_question_callback (who : Ident) (s : SysState) : SysState × List Act :=
  ({ s with sessions := dpop s.sessions who.id },
   [Act.answerCb "", Act.editText "question_cancelled"])

/-- cancel_reply_callback (src/bot.py:955-972), standalone at 1230. -/
def cancel_reply_callback (who : Ident) (s : SysState) : SysState × List Act :=
  ({ s with sessions := dpop s.sessions who.id },
   [Act.answerCb "", Act.editText "reply_cancelled"])

/-- handle_menu_buttons (src/bot.py:187-218).  The Ask Question and Send
Announcement branches call the start coroutines whose returned conversation
state is discarded here (plain MessageHandler dispatch). -/
def handle_menu_buttons (cfg : Config) (who : Ident) (body : String) (s : SysState) :
    SysState × List Act :=
  if body = "Ask Question" then
    if statusOf s who.id = "approved" then (s, ask_question_start_acts)
    else (s, [Act.replyText "approved_members_only"])
  else if body = "Help & Support" then (s, [Act.replyText "help_support"])
  else if who.id ∈ cfg.adminIds then
    if body = "Send Announcement" then (s, announcement_start_acts)
    else if body = "View Statistics" then (s, [Act.replyText "stats_dashboard"])
    else if body = "Clear Pending" then clear_pending_requests s
    else if body = "View Questions" then view_pending_questions s
    else (s, [])
  else (s, [])

/-! ## Event dispatch (src/bot.py:1139-1261)

stepFn reproduces the group-0 handler order of main: the approval
CallbackQueryHandler, the four standalone cancel CallbackQueryHandlers, the
four ConversationHandlers (registration, ask, reply, announcement), the
handle_menu_buttons MessageHandler, the start/cancel CommandHandlers and the
membership handler.  Only the first matching handler runs.  A
ConversationHandler with an active conversation for the user consults its
current state handlers and then its fallbacks (never its entry points:
allow_reentry is off); without an active conversation only its entry points.
The four standalone cancel handlers precede the conversation handlers, so they
shadow the identical fallbacks registered inside the conversations. -/

/-- Handlers reached after the registration conversation for a callback query:
the ask conversation never matches callbacks, then the reply conversation
(entry only, when no reply conversation is active), then the announcement
conversation. -/
def callbackTail (who : Ident) (data : String) (s : SysState) : SysState × List Act :=
  if who.id ∉ s.conv.rep ∧ strStarts data "reply_" then reply_to_comment_start who data s
  else
    match dget s.conv.ann who.id with
    | some AnnState.annSemester =>
      if strStarts data "announce_" then announcement_semester who data s else (s, [])
    | _ => (s, [])

inductive Upd
  | cmd (who : Ident) (name : String)
  | text (who : Ident) (body : String) (msgId : Nat) (date : String)
  | photo (who : Ident) (photos : List String) (msgId : Nat) (date : String)
  | docMsg (who : Ident)
  | callback (who : Ident) (data : String) (msgId : Nat)
  | memberJoin (chatId : Int) (invite : Option InviteLinkInfo) (members : List Ident)

def stepFn (cfg : Config) (o : Oracle) (s : SysState) (e : Upd) : SysState × List Act :=
  match e with
  | .cmd who name =>
    if name = "cancel" then
      match dget s.conv.reg who.id with
      | some _ =>
        let r := cancel_core cfg who s
        ({ r.1 with conv := { r.1.conv with reg := dpop r.1.conv.reg who.id } }, r.2)
      | none =>
        if who.id ∈ s.conv.ask then
          let r := cancel_core cfg who s
          ({ r.1 with conv := { r.1.conv with
              ask := r.1.conv.ask.filter (fun x => decide (x ≠ who.id)) } }, r.2)
        else if who.id ∈ s.conv.rep then
          let r := cancel_core cfg who s
          ({ r.1 with conv := { r.1.conv with
              rep := r.1.conv.rep.filter (fun x => decide (x ≠ who.id)) } }, r.2)
        else
          match dget s.conv.ann who.id with
          | some _ =>
            let r := cancel_core cfg who s
            ({ r.1 with conv := { r.1.conv with ann := dpop r.1.conv.ann who.id } }, r.2)
          | none => cancel_core cfg who s
    else if name = "start" then start_h cfg who s
    else (s, [])
  | .text who body msgId date =>
    if dget s.conv.reg who.id = some RegState.getFullName then get_full_name who body s
    else if who.id ∈ s.conv.ask then receive_comment cfg who body msgId date s
    else if body = "Ask Question" then
      ({ s with conv := { s.conv with
          ask := who.id :: s.conv.ask.filter (fun x => decide (x ≠ who.id)) } },
       ask_question_start_acts)
    else if who.id ∈ s.conv.rep then send_reply_to_user o who body s
    else if dget s.conv.ann who.id = some AnnState.annContent then
      announcement_content_h o who (Content.textContent body) s
    else if dget s.conv.ann who.id = none ∧ body = "Send Announcement" then
      ({ s with conv := { s.conv with ann := dset s.conv.ann who.id AnnState.annSemester } },
       announcement_start_acts)
    else handle_menu_buttons cfg who body s
  | .photo who photos msgId date =>
    if dget s.conv.reg who.id = some RegState.awaitingScreenshot then
      receive_screenshot cfg who photos msgId date s
    else if dget s.conv.ann who.id = some AnnState.annContent then
      announcement_content_h o who (Content.photoContent photos none) s
    else (s, [])
  | .docMsg who =>
    if dget s.conv.ann who.id = some AnnState.annContent then
      announcement_content_h o who Content.otherContent s
    else (s, [])
  | .callback who data msgId =>
    if strStarts data "approve_" || strStarts data "reject_" then
      user_approval_handler cfg o who.id data s
    else if data = "cancel_registration" then cancel_registration_callback who s
    else if data = "cancel_announcement" then cancel_announcement_callback who s
    else if data = "cancel_question" then cancel_question_callback who s
    else if data = "cancel_reply" then cancel_reply_callback who s
    else
      match dget s.conv.reg who.id with
      | some RegState.getSemester =>
        if strStarts data "semester_" then get_semester who data s
        else callbackTail who data s
      | some RegState.getStream =>
        if strStarts data "stream_" then get_stream who data s
        else callbackTail who data s
      | some RegState.getGender =>
        if strStarts data "gender_" then get_gender who data s
        else callbackTail who data s
      | some RegState.getPaymentMethod =>
        if strStarts data "method_" then get_payment_method who data msgId s
        else callbackTail who data s
      | some RegState.getFullName => callbackTail who data s
      | some RegState.awaitingScreenshot => callbackTail who data s
      | none =>
        if data = "get_started" then handle_get_started_callback who s
        else callbackTail who data s
  | .memberJoin chatId invite members =>
    match cfg.mainChannelId with
    | some mc =>
      if chatId = mc then
        (s, handle_new_chat_members cfg o s.bot.user_statuses chatId invite members)
      else (s, [])
    | none => (s, [])

def run (cfg : Config) (o : Oracle) : SysState → List Upd → SysState
  | s, [] => s
  | s, e :: es => run cfg o (stepFn cfg o s e).1 es

/-- States of the process reachable from the empty initial state of main. -/
inductive Reachable (cfg : Config) : SysState → Prop
  | init : Reachable cfg initState
  | step (s : SysState) (o : Oracle) (e : Upd) :
      Reachable cfg s → Reachable cfg (stepFn cfg o s e).1

/-! ## Status-transition invariant

Inv is the inductive invariant of the dispatch system: every stored status is
one of the three written values; a user with a Review Queue entry has status
pending; a user inside the registration conversation has status none or
rejected (entry is refused to approved/pending users, and a queue entry forces
pending, which forces the user out of the conversation). -/

def StatusVals (s : SysState) : Prop :=
  ∀ p ∈ s.bot.user_statuses, p.2 = "pending" ∨ p.2 = "approved" ∨ p.2 = "rejected"

def QueuePending (s : SysState) : Prop :=
  ∀ u, dget s.bot.pending_reviews u ≠ none → statusOf s u = "pending"

def RegNotDecided (s : SysState) : Prop :=
  ∀ u, dget s.conv.reg u ≠ none → statusOf s u = "none" ∨ statusOf s u = "rejected"

def Inv (s : SysState) : Prop := StatusVals s ∧ QueuePending s ∧ RegNotDecided s

/-- The status edges the specification allows. -/
def allowedEdge (a b : String) : Prop :=
  (a = "none" ∧ b = "pending") ∨ (a = "pending" ∧ b = "approved") ∨
    (a = "pending" ∧ b = "rejected") ∨ (a = "rejected" ∧ b = "pending")

theorem Inv_init : Inv initState := by
  refine ⟨?_, ?_, ?_⟩ <;> intro u hu <;> simp [initState, dget] at hu

theorem dget_mem {κ α : Type} [DecidableEq κ] (l : List (κ × α)) (u : κ) (v : α)
    (h : dget l u = some v) : (u, v) ∈ l := by
  induction l with
  | nil => simp [dget] at h
  | cons hd tl ih =>
    obtain ⟨k1, v1⟩ := hd
    by_cases hk : k1 = u
    · subst hk
      simp [dget] at h
      simp [h]
    · simp only [dget, if_neg hk] at h
      exact List.mem_cons_of_mem _ (ih h)

theorem mem_dpop {κ α : Type} [DecidableEq κ] (d : List (κ × α)) (k : κ) (p : κ × α)
    (h : p ∈ dpop d k) : p ∈ d := by
  induction d with
  | nil => simpa [dpop] using h
  | cons hd tl ih =>
    obtain ⟨k1, v1⟩ := hd
    by_cases h1 : k1 = k
    · simp only [dpop, if_pos h1] at h
      exact List.mem_cons_of_mem _ (ih h)
    · simp only [dpop, if_neg h1] at h
      rcases List.mem_cons.1 h with h2 | h2
      · exact List.mem_cons.2 (Or.inl h2)
      · exact List.mem_cons_of_mem _ (ih h2)

theorem mem_dset_cases {κ α : Type} [DecidableEq κ] (d : List (κ × α)) (k : κ) (v : α)
    (p : κ × α) (h : p ∈ dset d k v) : p = (k, v) ∨ p ∈ d := by
  rcases List.mem_cons.1 h with h1 | h1
  · exact Or.inl h1
  · exact Or.inr (mem_dpop d k p h1)

theorem dget_dpop_ne_none {κ α : Type} [DecidableEq κ] (d : List (κ × α)) (k u : κ)
    (h : dget (dpop d k) u ≠ none) : dget d u ≠ none := by
  rw [dget_dpop] at h
  by_cases hx : u = k
  · simp [hx] at h
  · simpa [hx] using h

theorem status_cases (s : SysState) (h1 : StatusVals s) (u : Nat) :
    statusOf s u = "none" ∨ statusOf s u = "pending" ∨ statusOf s u = "approved" ∨
      statusOf s u = "rejected" := by
  unfold statusOf
  cases hg : dget s.bot.user_statuses u with
  | none => simp
  | some v =>
    have hv := h1 (u, v) (dget_mem _ _ _ hg)
    simp only [Option.getD_some]
    tauto

/-- Transfer of Inv and of the no-status-change fact along a step that keeps
the statuses, shrinks (or keeps) the queue and shrinks (or keeps) the
registration-conversation map. -/
theorem sound_of_core (s t : SysState)
    (hst : t.bot.user_statuses = s.bot.user_statuses)
    (hq : ∀ u, dget t.bot.pending_reviews u ≠ none → dget s.bot.pending_reviews u ≠ none)
    (hr : ∀ u, dget t.conv.reg u ≠ none → dget s.conv.reg u ≠ none)
    (hInv : Inv s) :
    Inv t ∧ ∀ u, statusOf t u ≠ statusOf s u →
      allowedEdge (statusOf s u) (statusOf t u) := by
  obtain ⟨h1, h2, h3⟩ := hInv
  have hstat : ∀ u, statusOf t u = statusOf s u := fun u => by simp [statusOf, hst]
  refine ⟨⟨?_, ?_, ?_⟩, ?_⟩
  · intro p hp
    exact h1 p (hst ▸ hp)
  · intro u hu
    rw [hstat u]
    exact h2 u (hq u hu)
  · intro u hu
    rw [hstat u]
    exact h3 u (hr u hu)
  · intro u hch
    exact absurd (hstat u) hch

/-- Entering the registration conversation via the Get Started callback. -/
theorem sound_get_started (who : Ident) (s : SysState) (hInv : Inv s) :
    Inv (handle_get_started_callback who s).1 ∧
      ∀ u, statusOf (handle_get_started_callback who s).1 u ≠ statusOf s u →
        allowedEdge (statusOf s u) (statusOf (handle_get_started_callback who s).1 u) := by
  obtain ⟨h1, h2, h3⟩ := hInv
  unfold handle_get_started_callback
  split
  · exact sound_of_core s s rfl (fun _ h => h) (fun _ h => h) ⟨h1, h2, h3⟩
  · split
    · exact sound_of_core s s rfl (fun _ h => h) (fun _ h => h) ⟨h1, h2, h3⟩
    · rename_i hap hpend
      have hstat : ∀ u,
          statusOf (setReg (updSess s who.id
            (fun ss => { ss with registration_in_progress := true })) who.id
              RegState.getFullName) u = statusOf s u := fun u => rfl
      refine ⟨⟨?_, ?_, ?_⟩, ?_⟩
      · intro p hp
        exact h1 p hp
      · intro u hu
        rw [hstat u]
        exact h2 u hu
      · intro u hu
        rw [hstat u]
        simp only [setReg, updSess, dget_dset] at hu
        by_cases hw : who.id = u
        · subst hw
          rcases status_cases s h1 who.id with h | h | h | h
          · exact Or.inl h
          · exact absurd h hpend
          · exact absurd h hap
          · exact Or.inr h
        · rw [if_neg hw] at hu
          exact h3 u hu
      · intro u hch
        exact absurd (hstat u) hch

/-- Moving to another state inside the registration conversation. -/
theorem sound_reg_advance (s : SysState) (w : Nat) (f : Session → Session) (st : RegState)
    (hin : dget s.conv.reg w ≠ none) (hInv : Inv s) :
    Inv (setReg (updSess s w f) w st) ∧
      ∀ u, statusOf (setReg (updSess s w f) w st) u ≠ statusOf s u →
        allowedEdge (statusOf s u) (statusOf (setReg (updSess s w f) w st) u) := by
  obtain ⟨h1, h2, h3⟩ := hInv
  have hstat : ∀ u, statusOf (setReg (updSess s w f) w st) u = statusOf s u := fun u => rfl
  refine ⟨⟨?_, ?_, ?_⟩, ?_⟩
  · intro p hp
    exact h1 p hp
  · intro u hu
    rw [hstat u]
    exact h2 u hu
  · intro u hu
    rw [hstat u]
    simp only [setReg, updSess, dget_dset] at hu
    by_cases hw : w = u
    · subst hw
      exact h3 w hin
    · rw [if_neg hw] at hu
      exact h3 u hu
  · intro u hch
    exact absurd (hstat u) hch

/-- The terminal registration step: receive_screenshot writes status pending,
creates the queue entry and leaves the conversation. -/
theorem sound_screenshot (cfg : Config) (who : Ident) (photos : List String) (msgId : Nat)
    (date : String) (s : SysState)
    (hin : dget s.conv.reg who.id ≠ none) (hInv : Inv s) :
    Inv (receive_screenshot cfg who photos msgId date s).1 ∧
      ∀ u, statusOf (receive_screenshot cfg who photos msgId date s).1 u ≠ statusOf s u →
        allowedEdge (statusOf s u) (statusOf (receive_screenshot cfg who photos msgId date s).1 u) := by
  obtain ⟨h1, h2, h3⟩ := hInv
  by_cases hph : photos = []
  · simp only [receive_screenshot, if_pos hph]
    exact sound_of_core s s rfl (fun _ h => h) (fun _ h => h) ⟨h1, h2, h3⟩
  · simp only [receive_screenshot, if_neg hph]
    have hstat : ∀ u, statusOf (receive_screenshot cfg who photos msgId date s).1 u =
        if who.id = u then "pending" else statusOf s u := by
      intro u
      simp only [receive_screenshot, if_neg hph, statusOf, dget_dset]
      by_cases hw : who.id = u <;> simp [hw]
    simp only [receive_screenshot, if_neg hph] at hstat
    refine ⟨⟨?_, ?_, ?_⟩, ?_⟩
    · intro p hp
      rcases mem_dset_cases _ _ _ _ hp with h | h
      · rw [h]
        exact Or.inl rfl
      · exact h1 p h
    · intro u hu
      rw [hstat u]
      simp only [dget_dset] at hu
      by_cases hw : who.id = u
      · simp [hw]
      · rw [if_neg hw] at hu ⊢
        exact h2 u hu
    · intro u hu
      have hune : ¬ u = who.id := by
        intro hh
        subst hh
        rw [dget_dpop] at hu
        simp at hu
      have hwne : ¬ who.id = u := fun hh => hune hh.symm
      rw [hstat u, if_neg hwne]
      exact h3 u (dget_dpop_ne_none _ _ _ hu)
    · intro u hch
      rw [hstat u] at hch ⊢
      by_cases hw : who.id = u
      · subst hw
        rw [if_pos rfl]
        rcases h3 who.id hin with h | h
        · exact Or.inl ⟨h, rfl⟩
        · exact Or.inr (Or.inr (Or.inr ⟨h, rfl⟩))
      · rw [if_neg hw] at hch
        exact absurd rfl hch

/-- An approve/reject that found a queue entry: pop plus decided status. -/
theorem sound_decide_pop (s : SysState) (uid : Nat) (val : String)
    (hval : val = "approved" ∨ val = "rejected")
    (hq0 : dget s.bot.pending_reviews uid ≠ none) (hInv : Inv s) :
    Inv (setStatus
        { s with bot := { s.bot with pending_reviews := dpop s.bot.pending_reviews uid } }
        uid val) ∧
      ∀ u, statusOf (setStatus
          { s with bot := { s.bot with pending_reviews := dpop s.bot.pending_reviews uid } }
          uid val) u ≠ statusOf s u →
        allowedEdge (statusOf s u) (statusOf (setStatus
          { s with bot := { s.bot with pending_reviews := dpop s.bot.pending_reviews uid } }
          uid val) u) := by
  obtain ⟨h1, h2, h3⟩ := hInv
  have hpend : statusOf s uid = "pending" := h2 uid hq0
  have hstat : ∀ u, statusOf (setStatus
      { s with bot := { s.bot with pending_reviews := dpop s.bot.pending_reviews uid } }
      uid val) u = if uid = u then val else statusOf s u :=
    fun u => statusOf_setStatus _ uid val u
  refine ⟨⟨?_, ?_, ?_⟩, ?_⟩
  · intro p hp
    rcases mem_dset_cases _ _ _ _ hp with h | h
    · rw [h]
      rcases hval with h | h
      · exact Or.inr (Or.inl h)
      · exact Or.inr (Or.inr h)
    · exact h1 p h
  · intro u hu
    have hune : ¬ u = uid := by
      intro hh
      subst hh
      simp only [setStatus] at hu
      rw [dget_dpop] at hu
      simp at hu
    have huidne : ¬ uid = u := fun hh => hune hh.symm
    rw [hstat u, if_neg huidne]
    simp only [setStatus] at hu
    exact h2 u (dget_dpop_ne_none _ _ _ hu)
  · intro u hu
    rw [hstat u]
    by_cases hw : uid = u
    · subst hw
      rcases h3 uid hu with h | h <;> rw [hpend] at h <;> exact absurd h (by decide)
    · rw [if_neg hw]
      exact h3 u hu
  · intro u hch
    rw [hstat u] at hch ⊢
    by_cases hw : uid = u
    · subst hw
      rw [if_pos rfl]
      rw [hpend]
      rcases hval with h | h
      · exact Or.inr (Or.inl ⟨rfl, h⟩)
      · exact Or.inr (Or.inr (Or.inl ⟨rfl, h⟩))
    · rw [if_neg hw] at hch
      exact absurd rfl hch

theorem sound_approval (cfg : Config) (o : Oracle) (adminId : Nat) (data : String)
    (s : SysState) (hInv : Inv s) :
    Inv (user_approval_handler cfg o adminId data s).1 ∧
      ∀ u, statusOf (user_approval_handler cfg o adminId data s).1 u ≠ statusOf s u →
        allowedEdge (statusOf s u) (statusOf (user_approval_handler cfg o adminId data s).1 u) := by
  unfold user_approval_handler
  split
  · split
    · split
      · split
        · exact sound_of_core s s rfl (fun _ h => h) (fun _ h => h) hInv
        · rename_i ud hq0
          split
          · exact sound_decide_pop s _ "approved" (Or.inl rfl) (by simp [hq0]) hInv
          · split
            · exact sound_decide_pop s _ "rejected" (Or.inr rfl) (by simp [hq0]) hInv
            · exact sound_of_core s _ rfl (fun u h => dget_dpop_ne_none _ _ _ h)
                (fun _ h => h) hInv
      · exact sound_of_core s s rfl (fun _ h => h) (fun _ h => h) hInv
    · exact sound_of_core s s rfl (fun _ h => h) (fun _ h => h) hInv
  · exact sound_of_core s s rfl (fun _ h => h) (fun _ h => h) hInv

theorem sound_menu (cfg : Config) (who : Ident) (body : String) (s : SysState) (hInv : Inv s) :
    Inv (handle_menu_buttons cfg who body s).1 ∧
      ∀ u, statusOf (handle_menu_buttons cfg who body s).1 u ≠ statusOf s u →
        allowedEdge (statusOf s u) (statusOf (handle_menu_buttons cfg who body s).1 u) := by
  unfold handle_menu_buttons clear_pending_requests view_pending_questions
  repeat' split
  all_goals
    first
      | exact sound_of_core s s rfl (fun _ h => h) (fun _ h => h) hInv
      | exact sound_of_core s _ rfl (fun u h => absurd rfl h) (fun _ h => h) hInv

theorem sound_callbackTail (who : Ident) (data : String) (s : SysState) (hInv : Inv s) :
    Inv (callbackTail who data s).1 ∧
      ∀ u, statusOf (callbackTail who data s).1 u ≠ statusOf s u →
        allowedEdge (statusOf s u) (statusOf (callbackTail who data s).1 u) := by
  simp only [callbackTail, reply_to_comment_start, announcement_semester]
  repeat' split
  all_goals exact sound_of_core s _ rfl (fun _ h => h) (fun _ h => h) hInv

/-- One dispatch step preserves Inv, and any status it changes moves along an
allowed edge. -/
theorem step_sound (cfg : Config) (o : Oracle) (s : SysState) (e : Upd) (hInv : Inv s) :
    Inv (stepFn cfg o s e).1 ∧
      ∀ u, statusOf (stepFn cfg o s e).1 u ≠ statusOf s u →
        allowedEdge (statusOf s u) (statusOf (stepFn cfg o s e).1 u) := by
  cases e with
  | cmd who name =>
    simp only [stepFn]
    split
    · split
      · exact sound_of_core s _ rfl (fun _ h => h) (fun u h => dget_dpop_ne_none _ _ _ h) hInv
      · split
        · exact sound_of_core s _ rfl (fun _ h => h) (fun _ h => h) hInv
        · split
          · exact sound_of_core s _ rfl (fun _ h => h) (fun _ h => h) hInv
          · split
            · exact sound_of_core s _ rfl (fun _ h => h) (fun _ h => h) hInv
            · exact sound_of_core s _ rfl (fun _ h => h) (fun _ h => h) hInv
    · split
      · unfold start_h
        repeat' split
        all_goals exact sound_of_core s s rfl (fun _ h => h) (fun _ h => h) hInv
      · exact sound_of_core s s rfl (fun _ h => h) (fun _ h => h) hInv
  | text who body msgId date =>
    simp only [stepFn]
    split
    · rename_i hreg
      simp only [get_full_name]
      split
      · exact sound_of_core s s rfl (fun _ h => h) (fun _ h => h) hInv
      · exact sound_reg_advance s who.id _ RegState.getSemester (by simp [hreg]) hInv
    · split
      · exact sound_of_core s _ rfl (fun _ h => h) (fun _ h => h) hInv
      · split
        · exact sound_of_core s _ rfl (fun _ h => h) (fun _ h => h) hInv
        · split
          · simp only [send_reply_to_user]
            repeat' split
            all_goals exact sound_of_core s _ rfl (fun _ h => h) (fun _ h => h) hInv
          · split
            · exact sound_of_core s _ rfl (fun _ h => h) (fun _ h => h) hInv
            · split
              · exact sound_of_core s _ rfl (fun _ h => h) (fun _ h => h) hInv
              · exact sound_menu cfg who body s hInv
  | photo who photos msgId date =>
    simp only [stepFn]
    split
    · rename_i hreg
      exact sound_screenshot cfg who photos msgId date s (by simp [hreg]) hInv
    · split
      · exact sound_of_core s _ rfl (fun _ h => h) (fun _ h => h) hInv
      · exact sound_of_core s s rfl (fun _ h => h) (fun _ h => h) hInv
  | docMsg who =>
    simp only [stepFn]
    split
    · exact sound_of_core s _ rfl (fun _ h => h) (fun _ h => h) hInv
    · exact sound_of_core s s rfl (fun _ h => h) (fun _ h => h) hInv
  | callback who data msgId =>
    simp only [stepFn]
    split
    · exact sound_approval cfg o who.id data s hInv
    · split
      · exact sound_of_core s _ rfl (fun _ h => h) (fun _ h => h) hInv
      · split
        · exact sound_of_core s _ rfl (fun _ h => h) (fun _ h => h) hInv
        · split
          · exact sound_of_core s _ rfl (fun _ h => h) (fun _ h => h) hInv
          · split
            · exact sound_of_core s _ rfl (fun _ h => h) (fun _ h => h) hInv
            · split
              · rename_i hreg
                split
                · exact sound_reg_advance s who.id _ RegState.getStream (by simp [hreg]) hInv
                · exact sound_callbackTail who data s hInv
              · rename_i hreg
                split
                · exact sound_reg_advance s who.id _ RegState.getGender (by simp [hreg]) hInv
                · exact sound_callbackTail who data s hInv
              · rename_i hreg
                split
                · exact sound_reg_advance s who.id _ RegState.getPaymentMethod
                    (by simp [hreg]) hInv
                · exact sound_callbackTail who data s hInv
              · rename_i hreg
                split
                · exact sound_reg_advance s who.id _ RegState.awaitingScreenshot
                    (by simp [hreg]) hInv
                · exact sound_callbackTail who data s hInv
              · exact sound_callbackTail who data s hInv
              · exact sound_callbackTail who data s hInv
              · split
                · exact sound_get_started who s hInv
                · exact sound_callbackTail who data s hInv
  | memberJoin chatId invite members =>
    simp only [stepFn]
    split
    · split
      · exact sound_of_core s s rfl (fun _ h => h) (fun _ h => h) hInv
      · exact sound_of_core s s rfl (fun _ h => h) (fun _ h => h) hInv
    · exact sound_of_core s s rfl (fun _ h => h) (fun _ h => h) hInv

theorem Inv_reachable (cfg : Config) (s : SysState) (h : Reachable cfg s) : Inv s := by
  induction h with
  | init => exact Inv_init
  | step s o e hs ih => exact (step_sound cfg o s e ih).1

/-- C2: in every reachable state, a dispatch step changes a stored user status
only along the edges none(unregistered)→pending, pending→approved,
pending→rejected and rejected→pending; no other transition is reachable. -/
theorem status_transitions_follow_allowed_edges (cfg : Config) (s : SysState)
    (hs : Reachable cfg s) (o : Oracle) (e : Upd) (u : Nat)
    (hch : statusOf (stepFn cfg o s e).1 u ≠ statusOf s u) :
    allowedEdge (statusOf s u) (statusOf (stepFn cfg o s e).1 u) :=
  (step_sound cfg o s e (Inv_reachable cfg s hs)).2 u hch

/-! ## Clear Pending and the stranded-pending property -/

/-- True when the conversation state of user u captures plain text before
handle_menu_buttons can see it (full-name step, question composition, reply
composition, announcement content). -/
def capturesText (s : SysState) (u : Nat) : Bool :=
  (dget s.conv.reg u == some RegState.getFullName) || decide (u ∈ s.conv.ask) ||
    decide (u ∈ s.conv.rep) || (dget s.conv.ann u == some AnnState.annContent)

/-- True when the update is a photo message from user v (the only update that
can create a Review Queue entry for v). -/
def submitsPhoto (v : Nat) : Upd → Bool
  | .photo who _ _ _ => decide (who.id = v)
  | _ => false

/-- The state part of user_approval_handler is always the identity, a bare pop,
or a pop plus a decided status for a user who had a queue entry. -/
theorem approval_state_shape (cfg : Config) (o : Oracle) (adminId : Nat) (data : String)
    (s : SysState) :
    (user_approval_handler cfg o adminId data s).1 = s ∨
      ∃ uid, dget s.bot.pending_reviews uid ≠ none ∧
        ((user_approval_handler cfg o adminId data s).1 =
            { s with bot := { s.bot with pending_reviews := dpop s.bot.pending_reviews uid } } ∨
          (user_approval_handler cfg o adminId data s).1 =
            setStatus { s with bot := { s.bot with
              pending_reviews := dpop s.bot.pending_reviews uid } } uid "approved" ∨
          (user_approval_handler cfg o adminId data s).1 =
            setStatus { s with bot := { s.bot with
              pending_reviews := dpop s.bot.pending_reviews uid } } uid "rejected") := by
  unfold user_approval_handler
  split
  · split
    · split
      · split
        · exact Or.inl rfl
        · rename_i ud hq0
          split
          · exact Or.inr ⟨_, by simp [hq0], Or.inr (Or.inl rfl)⟩
          · split
            · exact Or.inr ⟨_, by simp [hq0], Or.inr (Or.inr rfl)⟩
            · exact Or.inr ⟨_, by simp [hq0], Or.inl rfl⟩
      · exact Or.inl rfl
    · exact Or.inl rfl
  · exact Or.inl rfl

theorem locked_approval (cfg : Config) (o : Oracle) (adminId : Nat) (data : String)
    (s : SysState) (v : Nat)
    (hst : statusOf s v = "pending") (hq : dget s.bot.pending_reviews v = none) :
    statusOf (user_approval_handler cfg o adminId data s).1 v = "pending" ∧
      dget (user_approval_handler cfg o adminId data s).1.bot.pending_reviews v = none := by
  rcases approval_state_shape cfg o adminId data s with he | ⟨uid, hne0, he | he | he⟩
  · rw [he]
    exact ⟨hst, hq⟩
  · rw [he]
    refine ⟨hst, ?_⟩
    show dget (dpop s.bot.pending_reviews uid) v = none
    rw [dget_dpop]
    split
    · rfl
    · exact hq
  · rw [he]
    have huv : ¬ uid = v := fun h => hne0 (by rw [h]; exact hq)
    rw [statusOf_setStatus, if_neg huv]
    refine ⟨hst, ?_⟩
    show dget (dpop s.bot.pending_reviews uid) v = none
    rw [dget_dpop]
    split
    · rfl
    · exact hq
  · rw [he]
    have huv : ¬ uid = v := fun h => hne0 (by rw [h]; exact hq)
    rw [statusOf_setStatus, if_neg huv]
    refine ⟨hst, ?_⟩
    show dget (dpop s.bot.pending_reviews uid) v = none
    rw [dget_dpop]
    split
    · rfl
    · exact hq

theorem locked_menu (cfg : Config) (who : Ident) (body : String) (s : SysState) (v : Nat)
    (hst : statusOf s v = "pending") (hq : dget s.bot.pending_reviews v = none) :
    statusOf (handle_menu_buttons cfg who body s).1 v = "pending" ∧
      dget (handle_menu_buttons cfg who body s).1.bot.pending_reviews v = none := by
  unfold handle_menu_buttons clear_pending_requests view_pending_questions
  repeat' split
  all_goals first
    | exact ⟨hst, hq⟩
    | exact ⟨hst, rfl⟩

theorem locked_screenshot (cfg : Config) (who : Ident) (photos : List String) (msgId : Nat)
    (date : String) (s : SysState) (v : Nat) (hne : ¬ who.id = v)
    (hst : statusOf s v = "pending") (hq : dget s.bot.pending_reviews v = none) :
    statusOf (receive_screenshot cfg who photos msgId date s).1 v = "pending" ∧
      dget (receive_screenshot cfg who photos msgId date s).1.bot.pending_reviews v = none := by
  by_cases hph : photos = []
  · simp only [receive_screenshot, if_pos hph]
    exact ⟨hst, hq⟩
  · simp only [receive_screenshot, if_neg hph]
    constructor
    · show (dget (dset s.bot.user_statuses who.id "pending") v).getD "none" = "pending"
      rw [dget_dset, if_neg hne]
      exact hst
    · show dget (dset s.bot.pending_reviews who.id _) v = none
      rw [dget_dset, if_neg hne]
      exact hq

/-- Any step that is not a photo submission by v keeps a queue-less pending
user v pending and queue-less. -/
theorem pending_locked_step (cfg : Config) (o : Oracle) (s : SysState) (e : Upd) (v : Nat)
    (hst : statusOf s v = "pending") (hq : dget s.bot.pending_reviews v = none)
    (hph : submitsPhoto v e = false) :
    statusOf (stepFn cfg o s e).1 v = "pending" ∧
      dget (stepFn cfg o s e).1.bot.pending_reviews v = none := by
  cases e with
  | cmd who name =>
    simp only [stepFn, start_h]
    repeat' split
    all_goals exact ⟨hst, hq⟩
  | text who body msgId date =>
    simp only [stepFn]
    split
    · simp only [get_full_name]
      split
      · exact ⟨hst, hq⟩
      · exact ⟨hst, hq⟩
    · split
      · exact ⟨hst, hq⟩
      · split
        · exact ⟨hst, hq⟩
        · split
          · simp only [send_reply_to_user]
            repeat' split
            all_goals exact ⟨hst, hq⟩
          · split
            · exact ⟨hst, hq⟩
            · split
              · exact ⟨hst, hq⟩
              · exact locked_menu cfg who body s v hst hq
  | photo who photos msgId date =>
    have hne : ¬ who.id = v := by
      simp only [submitsPhoto, decide_eq_false_iff_not] at hph
      exact hph
    simp only [stepFn]
    split
    · exact locked_screenshot cfg who photos msgId date s v hne hst hq
    · split
      · exact ⟨hst, hq⟩
      · exact ⟨hst, hq⟩
  | docMsg who =>
    simp only [stepFn]
    split
    · exact ⟨hst, hq⟩
    · exact ⟨hst, hq⟩
  | callback who data msgId =>
    simp only [stepFn]
    split
    · exact locked_approval cfg o who.id data s v hst hq
    · repeat' split
      all_goals
        first
          | exact ⟨hst, hq⟩
          | (simp only [callbackTail, reply_to_comment_start, announcement_semester]
             repeat' split
             all_goals exact ⟨hst, hq⟩)
          | (simp only [handle_get_started_callback]
             repeat' split
             all_goals exact ⟨hst, hq⟩)
  | memberJoin chatId invite members =>
    simp only [stepFn]
    repeat' split
    all_goals exact ⟨hst, hq⟩

theorem pending_locked_run (cfg : Config) (o : Oracle) (s : SysState) (es : List Upd) (v : Nat)
    (hst : statusOf s v = "pending") (hq : dget s.bot.pending_reviews v = none)
    (hno : ∀ e ∈ es, submitsPhoto v e = false) :
    statusOf (run cfg o s es) v = "pending" ∧
      dget (run cfg o s es).bot.pending_reviews v = none := by
  induction es generalizing s with
  | nil => exact ⟨hst, hq⟩
  | cons e es ih =>
    have h1 := pending_locked_step cfg o s e v hst hq (hno e (List.mem_cons_self e es))
    exact ih (stepFn cfg o s e).1 h1.1 h1.2 (fun x hx => hno x (List.mem_cons_of_mem _ hx))

/-- With the admin outside every text-capturing conversation, the text
"Clear Pending" dispatches to clear_pending_requests. -/
theorem clear_step_eq (cfg : Config) (o : Oracle) (s : SysState) (who : Ident)
    (mid : Nat) (date : String) (hadm : who.id ∈ cfg.adminIds)
    (hcap : capturesText s who.id = false) :
    stepFn cfg o s (Upd.text who "Clear Pending" mid date) = clear_pending_requests s := by
  simp only [capturesText, Bool.or_eq_false_iff, beq_eq_false_iff_ne, ne_eq,
    decide_eq_false_iff_not] at hcap
  obtain ⟨⟨⟨h1, h2⟩, h3⟩, h4⟩ := hcap
  have e1 : ("Clear Pending" : String) ≠ "Ask Question" := by decide
  have e2 : ("Clear Pending" : String) ≠ "Send Announcement" := by decide
  have e3 : ("Clear Pending" : String) ≠ "Help & Support" := by decide
  have e4 : ("Clear Pending" : String) ≠ "View Statistics" := by decide
  simp only [stepFn, handle_menu_buttons, if_neg h1, if_neg h2, if_neg h3, if_neg e1,
    if_neg h4]
  rw [if_neg (fun hand => e2 hand.2)]
  simp only [if_neg e3, if_pos hadm, if_neg e2, if_neg e4]
  simp

/-- C9: the admin Clear Pending action empties the entire Review Queue in one
step while leaving every Directory status and profile record unchanged; a user
who was pending stays pending with no queue entry, and for as long as they do
not resubmit a screenshot every later approve/reject on them reports the
already-processed notice and changes nothing, so they can never become
approved without re-submitting. -/
theorem clear_pending_strands_pending_users (cfg : Config) (o : Oracle) (s : SysState)
    (who : Ident) (mid : Nat) (date : String)
    (hadm : who.id ∈ cfg.adminIds) (hcap : capturesText s who.id = false) :
    (stepFn cfg o s (Upd.text who "Clear Pending" mid date)).1.bot.pending_reviews = []
    ∧ (stepFn cfg o s (Upd.text who "Clear Pending" mid date)).1.bot.user_statuses =
        s.bot.user_statuses
    ∧ (stepFn cfg o s (Upd.text who "Clear Pending" mid date)).1.bot.user_data =
        s.bot.user_data
    ∧ ∀ v es, statusOf s v = "pending" → (∀ e ∈ es, submitsPhoto v e = false) →
        statusOf (run cfg o (stepFn cfg o s (Upd.text who "Clear Pending" mid date)).1 es) v
            = "pending"
        ∧ dget (run cfg o (stepFn cfg o s
            (Upd.text who "Clear Pending" mid date)).1 es).bot.pending_reviews v = none
        ∧ ∀ data act w, pySplitU data = [act, w] → pyToNat w = some v →
            user_approval_handler cfg o who.id data
                (run cfg o (stepFn cfg o s (Upd.text who "Clear Pending" mid date)).1 es) =
              (run cfg o (stepFn cfg o s (Upd.text who "Clear Pending" mid date)).1 es,
                [Act.answerCb "", Act.editText "already_processed"]) := by
  rw [clear_step_eq cfg o s who mid date hadm hcap]
  refine ⟨rfl, rfl, rfl, ?_⟩
  intro v es hpend hno
  have hrun := pending_locked_run cfg o (clear_pending_requests s).1 es v hpend rfl hno
  refine ⟨hrun.1, hrun.2, ?_⟩
  intro data act w hp hw
  exact approval_miss cfg o who.id data _ act w v hadm hp hw hrun.2

/-! ## Concrete traces used by the witnesses and the dispatch-order bugs -/

def cfgW : Config := ⟨[99], some (-100), some (-200)⟩
def oW : Oracle := ⟨true, true, fun _ => false, fun _ => true⟩
def uFive : Ident := ⟨5, none, "Five"⟩
def uAdmin : Ident := ⟨99, some "adm", "Admin"⟩

/-- The state after user 5 walks the registration flow up to the screenshot
prompt (the spec §8 example trace). -/
def regSetupState : SysState :=
  (stepFn cfgW oW (stepFn cfgW oW (stepFn cfgW oW (stepFn cfgW oW (stepFn cfgW oW
    (stepFn cfgW oW initState (Upd.callback uFive "get_started" 10)).1
    (Upd.text uFive "Alemu B" 11 "d")).1
    (Upd.callback uFive "semester_First Semester" 12)).1
    (Upd.callback uFive "stream_Natural Science" 13)).1
    (Upd.callback uFive "gender_Male" 14)).1
    (Upd.callback uFive "method_CBE" 15)).1

theorem reachable_regSetupState : Reachable cfgW regSetupState :=
  Reachable.step _ oW _ (Reachable.step _ oW _ (Reachable.step _ oW _ (Reachable.step _ oW _
    (Reachable.step _ oW _ (Reachable.step _ oW _ Reachable.init)))))

/-- The state after user 5 then submits the payment screenshot. -/
def submittedState : SysState :=
  (stepFn cfgW oW regSetupState (Upd.photo uFive ["fileA"] 16 "d7")).1

theorem reachable_submittedState : Reachable cfgW submittedState :=
  Reachable.step _ oW _ reachable_regSetupState

theorem status_transitions_follow_allowed_edges_witness :
    statusOf (stepFn cfgW oW regSetupState (Upd.photo uFive ["fileA"] 16 "d7")).1 5 ≠
        statusOf regSetupState 5
    ∧ allowedEdge (statusOf regSetupState 5)
        (statusOf (stepFn cfgW oW regSetupState (Upd.photo uFive ["fileA"] 16 "d7")).1 5) :=
  ⟨by decide,
    status_transitions_follow_allowed_edges cfgW regSetupState reachable_regSetupState
      oW (Upd.photo uFive ["fileA"] 16 "d7") 5 (by decide)⟩

def clearedState : SysState :=
  (stepFn cfgW oW submittedState (Upd.text uAdmin "Clear Pending" 17 "d8")).1

def strandedState : SysState :=
  run cfgW oW clearedState [Upd.callback uAdmin "approve_5" 18]

theorem clear_pending_strands_pending_users_witness :
    (99 : Nat) ∈ cfgW.adminIds
    ∧ statusOf strandedState 5 = "pending"
    ∧ user_approval_handler cfgW oW 99 "approve_5" strandedState =
        (strandedState, [Act.answerCb "", Act.editText "already_processed"]) := by
  have h := clear_pending_strands_pending_users cfgW oW submittedState uAdmin 17 "d8"
    (by decide) (by decide)
  have h2 := h.2.2.2 5 [Upd.callback uAdmin "approve_5" 18] (by decide) (by decide)
  exact ⟨by decide, h2.1, h2.2.2 "approve_5" "approve" "5" (by decide) (by decide)⟩

/-- State after a user with status none sends the menu text "Ask Question". -/
def askEntryState : SysState :=
  (stepFn cfgW oW initState (Upd.text uFive "Ask Question" 20 "d1")).1

/-- State after that user then types a question text. -/
def askDoneState : SysState :=
  (stepFn cfgW oW askEntryState (Upd.text uFive "What is the exam date" 21 "d2")).1

/-- C3 (code bug): the ask-question ConversationHandler entry point
(src/bot.py:1184) is registered before handle_menu_buttons and performs no
status check, so a user whose Directory status is "none" (not approved) enters
the question-composition state and their next text is stored as a Pending
Comment Entry and broadcast to the admins; the approved-members-only guard at
src/bot.py:196-200 is unreachable for the exact text "Ask Question". -/
theorem non_approved_user_enters_question_flow :
    statusOf initState 5 ≠ "approved"
    ∧ 5 ∈ askEntryState.conv.ask
    ∧ dget askDoneState.bot.pending_comments "comment_5_21" =
        some ⟨5, some "Five", none, some "N/A", "What is the exam date", "d2"⟩
    ∧ statusOf askDoneState 5 ≠ "approved" := by decide

/-- State of user 5 mid-registration at the semester step. -/
def midRegState : SysState :=
  (stepFn cfgW oW (stepFn cfgW oW initState (Upd.callback uFive "get_started" 10)).1
    (Upd.text uFive "Alemu B" 11 "d1")).1

/-- State after user 5 presses the inline Cancel button there. -/
def cancelledRegState : SysState :=
  (stepFn cfgW oW midRegState (Upd.callback uFive "cancel_registration" 12)).1

/-- C8 (code bug): pressing the inline Cancel button mid-registration clears
the Conversation Session and leaves the Directory and the Review Queue exactly
as they were, but the conversation does not return to Idle: the standalone
cancel_registration CallbackQueryHandler (src/bot.py:1227) precedes the
registration ConversationHandler, so the conversation fallback
(src/bot.py:1178) never fires and the END value returned by the standalone
handler is discarded, leaving the conversation at the semester step. -/
theorem cancel_callback_keeps_conversation_state :
    dget midRegState.conv.reg 5 = some RegState.getSemester
    ∧ (sessOf midRegState 5).full_name = some "Alemu B"
    ∧ sessOf cancelledRegState 5 = Session.empty
    ∧ cancelledRegState.bot = midRegState.bot
    ∧ dget cancelledRegState.conv.reg 5 = some RegState.getSemester := by decide

end Abj
